import Mathlib

/-!
Verification development for the WaterNet seismic-reliability notebook
(src/main.ipynb).

The notebook's damage-assessment and serviceability pipeline is embedded
shallowly:

* Python floats are modelled as exact rationals (`ℚ`), keeping the notebook's
  decimal constants exact.
* The external math-library routines `scipy.stats.lognorm.cdf` and `numpy.exp`
  are parameters of the embedding (`cdf`, `expf`); theorems constrain them only
  by properties those libraries guarantee (a lognormal cdf vanishes on
  nonpositive arguments, since the distribution is supported on the positive
  reals).
* Randomness is explicit: every `random.uniform(0, 1)` draw, every
  `np.random.uniform()` draw and every `poisson.rvs` sample is an input of the
  corresponding function, so one run of the notebook corresponds to one choice
  of these inputs.
* Python dicts keyed by strings become association lists (`List (String × _)`);
  `d.get(k, default)` becomes `(l.lookup k).getD default`.
-/

namespace WaterNet

/-- Cell 6: lognormal fragility parameters (median, beta) for each tank damage
state, in the insertion order of the Python dict. -/
def tanks_damage_state_params : List (String × ℚ × ℚ) :=
  [("Minor", (18/100, 1/2)), ("Moderate", (55/100, 1/2)),
   ("Extensive", (115/100, 3/5)), ("Complete", (3/2, 3/5))]

/-- Cell 7: lognormal fragility parameters (median, beta) for each pump damage
state, in the insertion order of the Python dict. -/
def pump_damage_state_params : List (String × ℚ × ℚ) :=
  [("Minor", (15/100, 3/4)), ("Moderate", (36/100, 13/20)),
   ("Extensive", (77/100, 13/20)), ("Complete", (3/2, 4/5))]

/-- Cell 6: operational level per tank damage state. -/
def tank_operational_levels : List (String × ℚ) :=
  [("None", 1), ("Minor", 9/10), ("Moderate", 4/5), ("Extensive", 3/5), ("Complete", 0)]

/-- Cell 7: operational level per pump damage state. -/
def pump_operational_levels : List (String × ℚ) :=
  [("None", 1), ("Minor", 9/10), ("Moderate", 4/5), ("Extensive", 3/5), ("Complete", 0)]

/-- Python `levels.get(state, 1.0)`: dictionary lookup with default 1.0, as used
for both `tank_operational_levels.get` and `pump_operational_levels.get`. -/
def levels_get (levels : List (String × ℚ)) (state : String) : ℚ :=
  (levels.lookup state).getD 1

/-- First loop of `determine_tank_damage_state` / `determine_pump_damage_state`:
for each state (in dict order) the code sets
`exceedance = 1 - lognorm.cdf(pga, s=beta, scale=median)` and records the mass
`exceedance - previous`, threading `previous := exceedance`.  The parameter
`cdf x s scale` stands for `scipy.stats.lognorm.cdf(x, s=s, scale=scale)`. -/
def compute_probabilities (cdf : ℚ → ℚ → ℚ → ℚ) (pga : ℚ) :
    List (String × ℚ × ℚ) → ℚ → List (String × ℚ)
  | [], _ => []
  | (state, (median, beta)) :: rest, previous =>
      (state, (1 - cdf pga beta median) - previous) ::
        compute_probabilities cdf pga rest (1 - cdf pga beta median)

/-- Second loop of the samplers: walk the probability list accumulating mass and
return the first state whose cumulative mass is reached by the uniform draw
`u`; if no state is reached the initial value `'None'` survives. -/
def select_damage_state (u : ℚ) : List (String × ℚ) → ℚ → String
  | [], _ => "None"
  | (state, probability) :: rest, cumulative =>
      if u ≤ cumulative + probability then state
      else select_damage_state u rest (cumulative + probability)

/-- Cell 6 `determine_tank_damage_state(pga)`, with the `random.uniform(0, 1)`
draw `u` made explicit. -/
def determine_tank_damage_state (cdf : ℚ → ℚ → ℚ → ℚ) (pga u : ℚ) : String :=
  select_damage_state u (compute_probabilities cdf pga tanks_damage_state_params 0) 0

/-- Cell 7 `determine_pump_damage_state(pga)`, with the `random.uniform(0, 1)`
draw `u` made explicit. -/
def determine_pump_damage_state (cdf : ℚ → ℚ → ℚ → ℚ) (pga u : ℚ) : String :=
  select_damage_state u (compute_probabilities cdf pga pump_damage_state_params 0) 0

/-- Cell 6 tank loop body: `pga_value = tanks_pga.get(tank_name, 0)` followed by
`tank.init_level = tank.init_level * operational_level`. -/
def tank_adjusted_level (cdf : ℚ → ℚ → ℚ → ℚ) (tanks_pga : List (String × ℚ))
    (tank_name : String) (u init_level : ℚ) : ℚ :=
  init_level * levels_get tank_operational_levels
    (determine_tank_damage_state cdf ((tanks_pga.lookup tank_name).getD 0) u)

/-- Cell 7 pump loop body: `pga_value = pumps_pga.get(pump_name, 0)`, sample the
damage state, look up its operational level; this value is what the loop stores
in `pump_performance[pump_name]`. -/
def pump_performance_entry (cdf : ℚ → ℚ → ℚ → ℚ) (pumps_pga : List (String × ℚ))
    (pump_name : String) (u : ℚ) : ℚ :=
  levels_get pump_operational_levels
    (determine_pump_damage_state cdf ((pumps_pga.lookup pump_name).getD 0) u)

/-- The network state the cell 7 pump loop could mutate: the per-pump
`base_speed` attribute.  The mutating statement
`pump.base_speed = operational_level` is commented out in the source, so the
loop only reads the network. -/
structure PumpNet where
  base_speed : List (String × ℚ)
deriving DecidableEq

/-- Cell 7 pump loop over `wn.pump_name_list`: each pump (paired with its
uniform draw) gets its operational level recorded in `pump_performance`; the
network model is threaded through unchanged because the `base_speed`
assignment is disabled in the source. -/
def apply_pump_damage (cdf : ℚ → ℚ → ℚ → ℚ) (pumps_pga : List (String × ℚ)) :
    List (String × ℚ) → PumpNet → PumpNet × List (String × ℚ)
  | [], net => (net, [])
  | (pump_name, u) :: rest, net =>
      ((apply_pump_damage cdf pumps_pga rest net).1,
        (pump_name, pump_performance_entry cdf pumps_pga pump_name u) ::
          (apply_pump_damage cdf pumps_pga rest net).2)

/-- Per-pipe inputs of cell 8: repair rate `RR[pipe]`, length (m), diameter (m),
the `poisson.rvs` sample drawn for this pipe in the `num_damages`
comprehension, and the `np.random.uniform()` value drawn in the leak-insertion
loop. -/
structure PipeInput where
  rr : ℚ
  pipe_length : ℚ
  diameter : ℚ
  poissonDraw : ℕ
  failDraw : ℚ
deriving DecidableEq

/-- Cell 8 `num_damages` comprehension: the damage count of a pipe is its
Poisson sample, taken for every pipe unconditionally (the comprehension runs
before the failure loop and does not consult any failure draw). -/
def num_damages (p : PipeInput) : ℕ := p.poissonDraw

/-- Cell 8 `leaks_breaks` comprehension:
`(int(0.85 * damage), int(0.15 * damage))`; Python `int()` truncates toward
zero, which on these nonnegative products is the floor. -/
def leaks_breaks (p : PipeInput) : ℕ × ℕ :=
  ((⌊(85/100 : ℚ) * (num_damages p : ℚ)⌋).toNat,
   (⌊(15/100 : ℚ) * (num_damages p : ℚ)⌋).toNat)

/-- Cell 8 `areas` comprehension: `np.pi * (d / 2) ** 2`; the float constant
`np.pi` is the parameter `np_pi`. -/
def areas (np_pi : ℚ) (p : PipeInput) : ℚ := np_pi * (p.diameter / 2) ^ 2

/-- Cell 8 `orifice_areas` comprehension:
`min((0.03 * leaks + 0.2 * breaks) * areas[pipe], areas[pipe])`. -/
def orifice_areas (np_pi : ℚ) (p : PipeInput) : ℚ :=
  min ((3/100 * ((leaks_breaks p).1 : ℚ) + 2/10 * ((leaks_breaks p).2 : ℚ)) * areas np_pi p)
    (areas np_pi p)

/-- Cell 8 failure probability `pf = 1 - np.exp(-RR[pipe] * length)`; the
parameter `expf` stands for `np.exp`. -/
def pipe_failure_probability (expf : ℚ → ℚ) (p : PipeInput) : ℚ :=
  1 - expf (-(p.rr * p.pipe_length))

/-- Cell 8 failure check: `np.random.uniform() < pf`. -/
def pipe_failed (expf : ℚ → ℚ) (p : PipeInput) : Bool :=
  decide (p.failDraw < pipe_failure_probability expf p)

/-- Cell 8 leak-insertion branch: only when the failure check succeeds is the
pipe split and a leak of area `orifice_areas[pipe]` added; otherwise nothing
is inserted. -/
def pipe_leak (expf : ℚ → ℚ) (np_pi : ℚ) (p : PipeInput) : Option ℚ :=
  if pipe_failed expf p then some (orifice_areas np_pi p) else none

/-- Per-node data consumed by the cell 9 serviceability loop: for a tank the
mean simulated head and the tank's elevation (together the simulation output)
and the pre-earthquake `original_tank_levels` entry; for a junction the mean
satisfied demand and the mean required demand; reservoirs match neither
branch of the loop. -/
inductive NodeData where
  | tank (meanHead elevation originalLevel : ℚ)
  | junction (satisfiedDemand requiredDemand : ℚ)
  | reservoir
deriving DecidableEq

/-- Cell 9 node loop: tanks get `(mean head - elevation) / original_level`
unconditionally; junctions get `satisfied / required` unless the required
demand is zero, in which case the node is skipped; other nodes are skipped. -/
def node_serviceability : List (String × NodeData) → List (String × ℚ)
  | [] => []
  | (node_name, NodeData.tank meanHead elevation originalLevel) :: rest =>
      (node_name, (meanHead - elevation) / originalLevel) :: node_serviceability rest
  | (node_name, NodeData.junction satisfiedDemand requiredDemand) :: rest =>
      if requiredDemand = 0 then node_serviceability rest
      else (node_name, satisfiedDemand / requiredDemand) :: node_serviceability rest
  | (_, NodeData.reservoir) :: rest => node_serviceability rest

/-- Cell 9 serviceability map: the node entries followed by one entry per pump
copied from `pump_performance` (pumps are links in WNTR, so their names do not
occur among the node entries). -/
def serviceability (nodes : List (String × NodeData))
    (pump_performance : List (String × ℚ)) : List (String × ℚ) :=
  node_serviceability nodes ++ pump_performance

/-- Representative of `scipy.stats.lognorm.cdf` on nonpositive arguments: the
lognormal distribution is supported on the positive reals, so its cdf is
exactly 0 there; this function agrees with scipy wherever a theorem below
evaluates it at a nonpositive intensity. -/
def cdf0 : ℚ → ℚ → ℚ → ℚ := fun _ _ _ => 0

/-- Rational stand-in for `scipy.stats.lognorm.cdf` evaluated at `pga = 0.3 g`
on the four pump fragility rows (selected by the `scale` argument); the values
agree with scipy to three decimal places, and the function vanishes on
nonpositive arguments as the true cdf does. -/
def cdfApprox : ℚ → ℚ → ℚ → ℚ := fun x _ scale =>
  if x ≤ 0 then 0
  else if scale = 15/100 then 822/1000
  else if scale = 36/100 then 39/100
  else if scale = 77/100 then 73/1000
  else 22/1000

/-- Stand-in for `np.exp` at the single point a witness evaluates it
(`exp(-0.7) ≈ 0.497`). -/
def expfHalf : ℚ → ℚ := fun _ => 1/2

/-- A concrete pipe: repair rate 0.7 repairs/m·yr over 1 m, so the failure
probability is `1 - exp(-0.7) ≈ 0.5`; the Poisson sample came out 5 and the
uniform failure draw 0.75 (so the pipe is not marked failed). -/
def samplePipe : PipeInput :=
  { rr := 7/10, pipe_length := 1, diameter := 1, poissonDraw := 5, failDraw := 3/4 }

/-- A tank name used in concrete instances. -/
def tankT1 : String := "T1"

/-- A pump name used in concrete instances. -/
def pumpP2 : String := "P2"

/-- The probability list built by the samplers carries exactly the damage-state
labels of the parameter table, in order. -/
theorem compute_probabilities_fst (cdf : ℚ → ℚ → ℚ → ℚ) (pga : ℚ) :
    ∀ (params : List (String × ℚ × ℚ)) (previous : ℚ),
      (compute_probabilities cdf pga params previous).map Prod.fst = params.map Prod.fst
  | [], _ => rfl
  | (state, (median, beta)) :: rest, previous => by
      simp [compute_probabilities, compute_probabilities_fst cdf pga rest]

/-- The selection walk returns either the initial value `'None'` or one of the
labels of its probability list. -/
theorem select_damage_state_mem (u : ℚ) :
    ∀ (l : List (String × ℚ)) (c : ℚ),
      select_damage_state u l c = "None" ∨ select_damage_state u l c ∈ l.map Prod.fst
  | [], _ => Or.inl rfl
  | (state, probability) :: rest, c => by
      by_cases h : u ≤ c + probability
      · simp [select_damage_state, h]
      · rcases select_damage_state_mem u rest (c + probability) with h1 | h1 <;>
          simp [select_damage_state, h, h1]

/-- At any nonpositive intensity every exceedance probability computed by the
samplers is `1 - lognorm.cdf = 1`, so the whole probability mass lands on the
first table row and the walk stops there: both samplers return `'Minor'` for
every uniform draw `u ≤ 1`. -/
theorem sampler_nonpos_minor (cdf : ℚ → ℚ → ℚ → ℚ)
    (hcdf : ∀ x s scale, x ≤ 0 → cdf x s scale = 0) (pga u : ℚ)
    (hpga : pga ≤ 0) (hu1 : u ≤ 1) :
    determine_tank_damage_state cdf pga u = "Minor" ∧
    determine_pump_damage_state cdf pga u = "Minor" := by
  have hle : u ≤ 0 + (1 - cdf pga (1/2) (18/100) - 0) := by
    rw [hcdf pga (1/2) (18/100) hpga]; linarith
  have hle2 : u ≤ 0 + (1 - cdf pga (3/4) (15/100) - 0) := by
    rw [hcdf pga (3/4) (15/100) hpga]; linarith
  constructor
  · simp only [determine_tank_damage_state, tanks_damage_state_params,
      compute_probabilities, select_damage_state, if_pos hle]
  · simp only [determine_pump_damage_state, pump_damage_state_params,
      compute_probabilities, select_damage_state, if_pos hle2]

/-- Looking a key up in an appended association list skips a first part that
does not carry the key. -/
theorem lookup_append_not_mem (key : String) (l₁ l₂ : List (String × ℚ))
    (h : ∀ q ∈ l₁, q.1 ≠ key) :
    List.lookup key (l₁ ++ l₂) = List.lookup key l₂ := by
  induction l₁ with
  | nil => rfl
  | cons head rest ih =>
    obtain ⟨k, v⟩ := head
    have hk : (key == k) = false := by
      have := h (k, v) (List.mem_cons_self _ _)
      simp only [ne_eq] at this
      exact beq_eq_false_iff_ne.mpr fun hkk => this hkk.symm
    simp only [List.cons_append, List.lookup, hk]
    exact ih fun q hq => h q (List.mem_cons_of_mem _ hq)

/-- The pump sampler always returns one of the five damage-state strings. -/
theorem determine_pump_damage_state_mem (cdf : ℚ → ℚ → ℚ → ℚ) (pga u : ℚ) :
    determine_pump_damage_state cdf pga u ∈
      [("None" : String), "Minor", "Moderate", "Extensive", "Complete"] := by
  have h := select_damage_state_mem u
    (compute_probabilities cdf pga pump_damage_state_params 0) 0
  rw [compute_probabilities_fst] at h
  unfold determine_pump_damage_state
  rcases h with h | h
  · rw [h]; simp
  · simp only [pump_damage_state_params, List.map_cons, List.map_nil, List.mem_cons,
      List.mem_singleton] at h
    simp only [List.mem_cons, List.mem_singleton]
    tauto

/-- Claim C1: the spec says that for every intensity at most 0 the damage-state
samplers return `'None'` with probability approximately 1 (at intensity 0,
almost surely).  The code computes each exceedance probability as
`1 - lognorm.cdf`, and a lognormal cdf is exactly 0 at nonpositive arguments,
so every exceedance probability is 1, the whole mass lands on the first table
row, and both samplers return `'Minor'` — never `'None'` — for every possible
uniform draw `u ∈ [0, 1]`.  The claim fails on the code; the inverted
`1 - cdf` contradicts the notebook's own HAZUS fragility-curve documentation. -/
theorem C1_nonpositive_intensity_yields_minor (cdf : ℚ → ℚ → ℚ → ℚ)
    (hcdf : ∀ x s scale, x ≤ 0 → cdf x s scale = 0) (pga u : ℚ)
    (hpga : pga ≤ 0) (hu0 : 0 ≤ u) (hu1 : u ≤ 1) :
    determine_tank_damage_state cdf pga u = "Minor" ∧
    determine_pump_damage_state cdf pga u = "Minor" ∧
    determine_tank_damage_state cdf pga u ≠ "None" ∧
    determine_pump_damage_state cdf pga u ≠ "None" := by
  obtain ⟨h1, h2⟩ := sampler_nonpos_minor cdf hcdf pga u hpga hu1
  refine ⟨h1, h2, ?_, ?_⟩
  · rw [h1]; decide
  · rw [h2]; decide

/-- Witness for C1 at intensity 0 and uniform draw one half, the cdf
instantiated with its exact value on nonpositive arguments. -/
theorem C1_wit :
    determine_tank_damage_state cdf0 0 (1/2) = "Minor" ∧
    determine_pump_damage_state cdf0 0 (1/2) = "Minor" ∧
    determine_tank_damage_state cdf0 0 (1/2) ≠ "None" ∧
    determine_pump_damage_state cdf0 0 (1/2) ≠ "None" :=
  C1_nonpositive_intensity_yields_minor cdf0 (fun _ _ _ _ => rfl) 0 (1/2)
    le_rfl (by norm_num) (by norm_num)

/-- Counterexample to claim C2 as stated: the `num_damages` comprehension draws
the Poisson sample for every pipe before the failure loop runs, so a pipe that
is not marked failed (here the uniform failure draw 0.75 is at least the
failure probability 0.5) still carries a nonzero sampled damage count — the
count is not drawn only for failed pipes.  The second half of the claim holds:
no leak is inserted for this pipe. -/
theorem C2_cex :
    pipe_failed expfHalf samplePipe = false ∧
    num_damages samplePipe = 5 ∧ num_damages samplePipe ≠ 0 ∧
    pipe_leak expfHalf (314159/100000) samplePipe = none := by
  have hf : pipe_failed expfHalf samplePipe = false := by
    simp only [pipe_failed, pipe_failure_probability, expfHalf, samplePipe,
      decide_eq_false_iff_not, not_lt]
    norm_num
  exact ⟨hf, rfl, by decide, by simp [pipe_leak, hf]⟩

/-- Claim C2 (amended): the Poisson damage count is drawn unconditionally for
every pipe — it equals the pipe's Poisson sample whatever the failure draw —
but a pipe whose uniform draw does not mark it failed gets no leak inserted,
regardless of that nonzero count. -/
theorem C2_unfailed_pipe_gets_no_leak (expf : ℚ → ℚ) (np_pi : ℚ) (p : PipeInput)
    (h : pipe_failed expf p = false) :
    pipe_leak expf np_pi p = none ∧ num_damages p = p.poissonDraw :=
  ⟨by simp [pipe_leak, h], rfl⟩

/-- Witness for the amended C2 on the concrete non-failed pipe. -/
theorem C2_wit :
    pipe_leak expfHalf (314159/100000) samplePipe = none ∧
    num_damages samplePipe = samplePipe.poissonDraw :=
  C2_unfailed_pipe_gets_no_leak expfHalf (314159/100000) samplePipe (by
    simp only [pipe_failed, pipe_failure_probability, expfHalf, samplePipe,
      decide_eq_false_iff_not, not_lt]
    norm_num)

/-- Counterexample to claim C3 as stated: a tank whose original level is 0 is
not excluded from the serviceability map (and nothing fails): the tank branch
of the cell 9 loop inserts its entry unconditionally, silently performing the
division — in Python a float division by 0.0 yielding inf/nan, not an error. -/
theorem C3_cex :
    (node_serviceability [(tankT1, NodeData.tank 5 2 0)]).map Prod.fst = [tankT1] := by
  decide

/-- Claim C3 (amended): the tank branch of the serviceability evaluator has no
zero guard (unlike the junction branch): every tank in the node list gets an
entry in the output map whatever its original level, including 0, and the
division is performed silently. -/
theorem C3_tank_never_excluded (node_name : String) (meanHead elevation originalLevel : ℚ)
    (nodes : List (String × NodeData))
    (hmem : (node_name, NodeData.tank meanHead elevation originalLevel) ∈ nodes) :
    node_name ∈ (node_serviceability nodes).map Prod.fst := by
  induction nodes with
  | nil => cases hmem
  | cons head rest ih =>
    rcases List.mem_cons.mp hmem with heq | htail
    · rw [← heq]
      simp [node_serviceability]
    · obtain ⟨hn, hd⟩ := head
      cases hd with
      | tank a b c =>
        simp only [node_serviceability, List.map_cons, List.mem_cons]
        exact Or.inr (ih htail)
      | junction s r =>
        by_cases hr : r = 0
        · simpa [node_serviceability, hr] using ih htail
        · simp only [node_serviceability, if_neg hr, List.map_cons, List.mem_cons]
          exact Or.inr (ih htail)
      | reservoir =>
        simpa [node_serviceability] using ih htail

/-- Witness for the amended C3: a tank with original level 0 is present in the
output map. -/
theorem C3_wit :
    tankT1 ∈ (node_serviceability [(tankT1, NodeData.tank 5 2 0)]).map Prod.fst :=
  C3_tank_never_excluded tankT1 5 2 0 [(tankT1, NodeData.tank 5 2 0)]
    (List.mem_cons_self _ _)

/-- Counterexample to claim C4 as stated: at the negative intensity -1 the
samplers do not fail with any error — the code has no validation — and return
the damage state `'Minor'` (the cdf argument is nonpositive, where the
lognormal cdf is exactly 0, so `cdf0` agrees with scipy here). -/
theorem C4_cex :
    determine_tank_damage_state cdf0 (-1) (1/2) = "Minor" ∧
    determine_pump_damage_state cdf0 (-1) (1/2) = "Minor" :=
  sampler_nonpos_minor cdf0 (fun _ _ _ _ => rfl) (-1) (1/2) (by norm_num) (by norm_num)

/-- Claim C4 (amended): negative intensities are not rejected; the samplers
return an ordinary damage state (one of the fragility-table labels) for every
uniform draw `u ∈ [0, 1]` — in fact `'Minor'`, since every exceedance
probability `1 - lognorm.cdf` equals 1 at a negative intensity. -/
theorem C4_negative_intensity_returns_state (cdf : ℚ → ℚ → ℚ → ℚ)
    (hcdf : ∀ x s scale, x ≤ 0 → cdf x s scale = 0) (pga u : ℚ)
    (hpga : pga < 0) (hu0 : 0 ≤ u) (hu1 : u ≤ 1) :
    determine_tank_damage_state cdf pga u ∈ tanks_damage_state_params.map Prod.fst ∧
    determine_pump_damage_state cdf pga u ∈ pump_damage_state_params.map Prod.fst := by
  obtain ⟨h1, h2⟩ := sampler_nonpos_minor cdf hcdf pga u (le_of_lt hpga) hu1
  rw [h1, h2]
  exact ⟨by decide, by decide⟩

/-- Witness for the amended C4 at intensity -1. -/
theorem C4_wit :
    determine_tank_damage_state cdf0 (-1) (1/2) ∈ tanks_damage_state_params.map Prod.fst ∧
    determine_pump_damage_state cdf0 (-1) (1/2) ∈ pump_damage_state_params.map Prod.fst :=
  C4_negative_intensity_returns_state cdf0 (fun _ _ _ _ => rfl) (-1) (1/2)
    (by norm_num) (by norm_num) (by norm_num)

/-- Counterexample to claim C5 as stated: with the pump fragility curves
evaluated at PGA 0.3 g and uniform draw one half the sampler returns
`'Moderate'`, the recorded operational level is 0.8, and 0.8 is the pump's
value in the serviceability map — which is not an element of {0, 1}. -/
theorem C5_cex :
    pump_performance_entry cdfApprox [(pumpP2, 3/10)] pumpP2 (1/2) = 4/5 ∧
    (serviceability []
        [(pumpP2, pump_performance_entry cdfApprox [(pumpP2, 3/10)] pumpP2 (1/2))]).lookup
        pumpP2 = some (4/5) ∧
    (4/5 : ℚ) ≠ 0 ∧ (4/5 : ℚ) ≠ 1 := by
  have hlook : (List.lookup pumpP2 [(pumpP2, (3:ℚ)/10)]).getD 0 = 3/10 := by
    simp [List.lookup]
  have hmod : determine_pump_damage_state cdfApprox
      ((List.lookup pumpP2 [(pumpP2, (3:ℚ)/10)]).getD 0) (1/2) = "Moderate" := by
    rw [hlook]
    norm_num [determine_pump_damage_state, pump_damage_state_params, compute_probabilities,
      select_damage_state, cdfApprox]
  have hval : pump_performance_entry cdfApprox [(pumpP2, 3/10)] pumpP2 (1/2) = 4/5 := by
    unfold pump_performance_entry
    rw [hmod]
    rfl
  refine ⟨hval, ?_, by norm_num, by norm_num⟩
  rw [hval]
  simp [serviceability, node_serviceability, List.lookup]

/-- Claim C5 (amended): a pump's serviceability value is always one of the five
operational-level table values {0, 0.6, 0.8, 0.9, 1} — not binary. -/
theorem C5_pump_value_in_table (cdf : ℚ → ℚ → ℚ → ℚ) (pumps_pga : List (String × ℚ))
    (pump_name : String) (u : ℚ) :
    pump_performance_entry cdf pumps_pga pump_name u ∈ [(0:ℚ), 3/5, 4/5, 9/10, 1] := by
  unfold pump_performance_entry
  have h := determine_pump_damage_state_mem cdf ((pumps_pga.lookup pump_name).getD 0) u
  simp only [List.mem_cons, List.not_mem_nil, or_false] at h
  rcases h with h | h | h | h | h <;> rw [h]
  · exact .tail _ (.tail _ (.tail _ (.tail _ (.head _))))
  · exact .tail _ (.tail _ (.tail _ (.head _)))
  · exact .tail _ (.tail _ (.head _))
  · exact .tail _ (.head _)
  · exact .head _

/-- Claim C6: a pump whose sampled damage state is `'Moderate'` gets operational
level exactly 0.8 from the table lookup, and exactly that value is the pump's
entry in the serviceability map — for every possible simulation result, since
the node data is universally quantified and the pump branch of the cell 9 loop
never reads it (pumps are links, so their names do not occur among the node
entries, which hypothesis `hname` records). -/
theorem C6_moderate_pump_serviceability (cdf : ℚ → ℚ → ℚ → ℚ) (pga u : ℚ)
    (nodes : List (String × NodeData)) (pump_name : String)
    (hmod : determine_pump_damage_state cdf pga u = "Moderate")
    (hname : ∀ q ∈ node_serviceability nodes, q.1 ≠ pump_name) :
    levels_get pump_operational_levels (determine_pump_damage_state cdf pga u) = 4/5 ∧
    (serviceability nodes
        [(pump_name,
          levels_get pump_operational_levels (determine_pump_damage_state cdf pga u))]).lookup
      pump_name = some (4/5) := by
  have hv : levels_get pump_operational_levels (determine_pump_damage_state cdf pga u) = 4/5 := by
    rw [hmod]; rfl
  refine ⟨hv, ?_⟩
  rw [hv]
  unfold serviceability
  rw [lookup_append_not_mem pump_name _ _ hname]
  simp [List.lookup]

/-- Witness for C6: at PGA 0.3 g and uniform draw one half the pump sampler
returns `'Moderate'`; with one tank node present, the pump's serviceability
entry is exactly 0.8. -/
theorem C6_wit :
    levels_get pump_operational_levels
      (determine_pump_damage_state cdfApprox (3/10) (1/2)) = 4/5 ∧
    (serviceability [(tankT1, NodeData.tank 1 1 1)]
        [(pumpP2,
          levels_get pump_operational_levels
            (determine_pump_damage_state cdfApprox (3/10) (1/2)))]).lookup pumpP2 =
      some (4/5) :=
  C6_moderate_pump_serviceability cdfApprox (3/10) (1/2) [(tankT1, NodeData.tank 1 1 1)] pumpP2
    (by norm_num [determine_pump_damage_state, pump_damage_state_params, compute_probabilities,
      select_damage_state, cdfApprox])
    (by
      intro q hq
      simp only [node_serviceability, List.mem_singleton] at hq
      rw [hq]
      decide)

/-- Claim C7: the orifice area is capped by `min` at the full cross-sectional
area `np.pi * (d/2)^2`, so it never exceeds the pipe bore, for any leak and
break counts (whatever the sampled damage count) and any positive diameter. -/
theorem C7_orifice_area_capped (np_pi : ℚ) (p : PipeInput) (hd : 0 < p.diameter) :
    orifice_areas np_pi p ≤ areas np_pi p := by
  unfold orifice_areas
  exact min_le_right _ _

/-- Witness for C7 on the concrete pipe of diameter 1 m with 5 sampled damages,
with `np.pi` at its float value. -/
theorem C7_wit :
    orifice_areas (314159/100000) samplePipe ≤ areas (314159/100000) samplePipe :=
  C7_orifice_area_capped (314159/100000) samplePipe (by norm_num [samplePipe])

/-- Claim C8: the split computes leaks as the floor of 0.85 times the damage
count and breaks as the floor of 0.15 times it — Python `int()` truncation on
a nonnegative product is the floor — and consequently the two (always
nonnegative, being naturals) sum to at most the damage count. -/
theorem C8_split_floor_and_sum (p : PipeInput) :
    (leaks_breaks p).1 = Nat.floor ((85/100 : ℚ) * (num_damages p : ℚ)) ∧
    (leaks_breaks p).2 = Nat.floor ((15/100 : ℚ) * (num_damages p : ℚ)) ∧
    (leaks_breaks p).1 + (leaks_breaks p).2 ≤ num_damages p := by
  have ha : (0:ℚ) ≤ (85/100 : ℚ) * (num_damages p : ℚ) := by positivity
  have hb : (0:ℚ) ≤ (15/100 : ℚ) * (num_damages p : ℚ) := by positivity
  have h1 : (leaks_breaks p).1 = Nat.floor ((85/100 : ℚ) * (num_damages p : ℚ)) := by
    show (⌊(85/100 : ℚ) * (num_damages p : ℚ)⌋).toNat =
      Nat.floor ((85/100 : ℚ) * (num_damages p : ℚ))
    rw [← Int.natCast_floor_eq_floor ha, Int.toNat_natCast]
  have h2 : (leaks_breaks p).2 = Nat.floor ((15/100 : ℚ) * (num_damages p : ℚ)) := by
    show (⌊(15/100 : ℚ) * (num_damages p : ℚ)⌋).toNat =
      Nat.floor ((15/100 : ℚ) * (num_damages p : ℚ))
    rw [← Int.natCast_floor_eq_floor hb, Int.toNat_natCast]
  refine ⟨h1, h2, ?_⟩
  rw [h1, h2]
  have hfa := Nat.floor_le ha
  have hfb := Nat.floor_le hb
  have hsum : ((Nat.floor ((85/100 : ℚ) * (num_damages p : ℚ)) +
      Nat.floor ((15/100 : ℚ) * (num_damages p : ℚ)) : ℕ) : ℚ) ≤ (num_damages p : ℚ) := by
    push_cast
    linarith
  exact_mod_cast hsum

/-- Claim C9: the pump damage-application loop records each pump's operational
level in `pump_performance` but returns the network model unchanged for the
solver: the `base_speed` assignment is commented out in the source, so no pump
attribute is mutated. -/
theorem C9_pump_application_frame (cdf : ℚ → ℚ → ℚ → ℚ) (pumps_pga : List (String × ℚ))
    (pumps : List (String × ℚ)) (net : PumpNet) :
    (apply_pump_damage cdf pumps_pga pumps net).1 = net ∧
    (apply_pump_damage cdf pumps_pga pumps net).2 =
      pumps.map fun q => (q.1, pump_performance_entry cdf pumps_pga q.1 q.2) := by
  induction pumps with
  | nil => exact ⟨rfl, rfl⟩
  | cons head rest ih =>
    obtain ⟨pump_name, u⟩ := head
    exact ⟨by simp [apply_pump_damage, ih.1], by simp [apply_pump_damage, ih.2]⟩

/-- Claim C10: a tank or pump whose id is missing from the attenuation model's
intensity map does not make the pipeline fail: `pga_map.get(name, 0)` yields
the default intensity 0, the damage state is sampled there, and the resulting
operational level is applied (multiplied into the tank's initial level,
recorded as the pump's performance). -/
theorem C10_missing_pga_defaults_to_zero (cdf : ℚ → ℚ → ℚ → ℚ)
    (tanks_pga pumps_pga : List (String × ℚ)) (tank_name pump_name : String)
    (ut up init_level : ℚ)
    (htank : tanks_pga.lookup tank_name = none)
    (hpump : pumps_pga.lookup pump_name = none) :
    tank_adjusted_level cdf tanks_pga tank_name ut init_level =
      init_level * levels_get tank_operational_levels (determine_tank_damage_state cdf 0 ut) ∧
    pump_performance_entry cdf pumps_pga pump_name up =
      levels_get pump_operational_levels (determine_pump_damage_state cdf 0 up) := by
  constructor
  · unfold tank_adjusted_level
    rw [htank]
    rfl
  · unfold pump_performance_entry
    rw [hpump]
    rfl

/-- Witness for C10 with empty intensity maps. -/
theorem C10_wit :
    tank_adjusted_level cdf0 [] tankT1 (1/2) 10 =
      10 * levels_get tank_operational_levels (determine_tank_damage_state cdf0 0 (1/2)) ∧
    pump_performance_entry cdf0 [] pumpP2 (1/2) =
      levels_get pump_operational_levels (determine_pump_damage_state cdf0 0 (1/2)) :=
  C10_missing_pga_defaults_to_zero cdf0 [] [] tankT1 pumpP2 (1/2) (1/2) 10 rfl rfl

end WaterNet
